import Mathlib

set_option maxRecDepth 100000

/-!
Shallow embedding of `src/bot.py` (Kryptex_response_bot): a role-gated
command registry and dispatcher.  The module-level mutable collections
`ADMINS`, `MODERATORS` and `COMMANDS` are gathered into an explicit
`BotState`; each Telegram handler becomes a function from the sender id,
the argument list (python-telegram-bot's `context.args`) or raw message
text, and the current state to the new state plus the list of observable
side effects (replies, file persists, message deletions, log records).
Handlers that can raise an uncaught Python exception return `Except`.
-/

/-- Python exceptions that can escape a handler in `bot.py`:
`int()` on a non-numeric string raises `ValueError` (line 158), and
`text.split()[0]` on a whitespace-only message raises `IndexError`
(line 50). -/
inductive PyExc where
  | valueError
  | indexError
deriving DecidableEq

deriving instance DecidableEq for Except

/-- Observable side effects of a handler, in program order:
`reply s` covers both `update.message.reply_text(s)` and
`context.bot.send_message(..., text=s)`; `persist f` is a `json.dump`
rewriting file `f`; `deleteMsg` is `context.bot.delete_message`;
`logInfo` / `logWarning` are the `logger` calls. -/
inductive Effect where
  | reply : String → Effect
  | deleteMsg : Effect
  | persist : String → Effect
  | logInfo : String → Effect
  | logWarning : String → Effect
deriving DecidableEq

/-- The process-wide mutable state of `bot.py`: the `ADMINS` list, the
`MODERATORS` list (JSON lists of integers, insertion order kept) and the
`COMMANDS` dict, modelled as an insertion-ordered association list with
unique keys, matching Python dict semantics. -/
structure BotState where
  admins : List Int
  moderators : List Int
  commands : List (String × String)
deriving DecidableEq

/-- Membership test used by `if user_id in ADMINS` (line 41). -/
def is_admin (user_id : Int) (st : BotState) : Bool :=
  st.admins.contains user_id

/-- Membership test used by `if user_id in MODERATORS` (line 45). -/
def is_moderator (user_id : Int) (st : BotState) : Bool :=
  st.moderators.contains user_id

/-- Python dict read, `COMMANDS.get(k)`: the value at the unique key,
or `None`. -/
def dictGet (k : String) : List (String × String) → Option String
  | [] => none
  | (k', v') :: rest => if k' = k then some v' else dictGet k rest

/-- Python dict write, `COMMANDS[k] = v`: update in place when the key
exists (keeping its position), append otherwise. -/
def dictInsert (k v : String) : List (String × String) → List (String × String)
  | [] => [(k, v)]
  | (k', v') :: rest => if k' = k then (k, v) :: rest else (k', v') :: dictInsert k v rest

/-- Python dict deletion, `del COMMANDS[k]`. -/
def dictDel (k : String) : List (String × String) → List (String × String)
  | [] => []
  | (k', v') :: rest => if k' = k then rest else (k', v') :: dictDel k rest

/-- Python dict membership, `k in COMMANDS`. -/
def dictContains (k : String) (d : List (String × String)) : Bool :=
  (dictGet k d).isSome

/-- Python `list.remove(x)`: drop the first occurrence. -/
def pyRemove (x : Int) : List Int → List Int
  | [] => []
  | y :: rest => if y = x then rest else y :: pyRemove x rest

/-- The whitespace characters `str.split()` breaks on (ASCII subset). -/
def isPySpace (c : Char) : Bool :=
  c = ' ' || c = '\t' || c = '\n' || c = '\r'

/-- Worker for `str.split()`: accumulate the current word (reversed) and
emit maximal nonempty runs of non-whitespace characters. -/
def wordsAux : List Char → List Char → List (List Char)
  | [], cur => if cur.isEmpty then [] else [cur.reverse]
  | c :: rest, cur =>
    if isPySpace c then
      if cur.isEmpty then wordsAux rest [] else cur.reverse :: wordsAux rest []
    else wordsAux rest (c :: cur)

/-- Python `text.split()` with no separator: split on whitespace runs,
discarding empty pieces. -/
def pySplit (text : String) : List String :=
  (wordsAux text.toList []).map List.asString

/-- Python `str.strip()` over the same whitespace set. -/
def trimChars (cs : List Char) : List Char :=
  ((cs.dropWhile isPySpace).reverse.dropWhile isPySpace).reverse

/-- Decimal digits to a value; `none` on the first non-digit. -/
def digitsVal? : List Char → Nat → Option Nat
  | [], acc => some acc
  | c :: rest, acc =>
    if c.isDigit then digitsVal? rest (acc * 10 + (c.toNat - 48)) else none

/-- Python `int(s)` on a decimal string: optional surrounding whitespace,
optional sign, then digits; `none` models the `ValueError` raised
otherwise. -/
def pyInt? (s : String) : Option Int :=
  match trimChars s.toList with
  | [] => none
  | '-' :: rest =>
    if rest.isEmpty then none else (digitsVal? rest 0).map (fun n => -(n : Int))
  | '+' :: rest =>
    if rest.isEmpty then none else (digitsVal? rest 0).map (fun n => (n : Int))
  | cs => (digitsVal? cs 0).map (fun n => (n : Int))

/-- Checks whether `p` is a prefix of `s`, over character lists. -/
def prefChars : List Char → List Char → Bool
  | [], _ => true
  | _ :: _, [] => false
  | a :: p, b :: s => a == b && prefChars p s

/-- Checks whether `p` occurs as a contiguous substring of `s`. -/
def subChars (p : List Char) : List Char → Bool
  | [] => p.isEmpty
  | b :: rest => prefChars p (b :: rest) || subChars p rest

/-- Substring test on strings: does `text` mention `pat`? -/
def mentionsStr (pat text : String) : Bool :=
  subChars pat.toList text.toList

/-- Do the effects include a message sent back to the chat? -/
def hasReply (effs : List Effect) : Bool :=
  effs.any fun e => match e with | .reply _ => true | _ => false

/-- Do the effects include a durable-store write? -/
def hasPersist (effs : List Effect) : Bool :=
  effs.any fun e => match e with | .persist _ => true | _ => false

/-- Do the effects include deleting the triggering message? -/
def hasDelete (effs : List Effect) : Bool :=
  effs.any fun e => match e with | .deleteMsg => true | _ => false

/-- `handle_command` (lines 47-61): dispatch of a custom command.  The
first whitespace token of the raw text is extracted (raising
`IndexError` on a token-less message) before the authorization check;
authorized (admin or moderator) senders get the stored response — the
Python truthiness test `if response:` skips both a missing key and an
empty stored response — followed by deletion of the trigger message;
unauthorized senders get only a warning log entry. -/
def handle_command (user_id : Int) (text : String) (st : BotState) :
    Except PyExc (BotState × List Effect) :=
  match pySplit text with
  | [] => .error .indexError
  | command :: _ =>
    if is_admin user_id st || is_moderator user_id st then
      match dictGet command st.commands with
      | some response =>
        if response != "" then
          .ok (st, [.reply response, .deleteMsg,
                    .logInfo s!"Command {command} executed by user {user_id}"])
        else
          .ok (st, [])
      | none => .ok (st, [])
    else
      .ok (st, [.logWarning s!"Unauthorized command attempt by user {user_id}"])

/-- `add_command` (lines 63-86): admin-only; fewer than 2 args is a
usage reply; otherwise `COMMANDS[args[0]] = ' '.join(args[1:])`, a full
rewrite of `commands.json`, a confirmation reply and a log entry. -/
def add_command (user_id : Int) (args : List String) (st : BotState) :
    BotState × List Effect :=
  if !(is_admin user_id st) then
    (st, [.logWarning s!"Unauthorized add_command attempt by user {user_id}"])
  else if args.length < 2 then
    (st, [.reply "Usage: /add_command <command> <response>"])
  else
    match args with
    | command :: rest =>
      let response := String.intercalate " " rest
      ({ st with commands := dictInsert command response st.commands },
       [.persist "commands.json", .reply s!"Command {command} added.",
        .logInfo s!"Command {command} added by admin {user_id}"])
    | [] => (st, [])

/-- `remove_command` (lines 88-112): admin-only; exactly 1 arg required;
a present token is deleted and persisted, an absent one gets the
"does not exist" reply with no mutation. -/
def remove_command (user_id : Int) (args : List String) (st : BotState) :
    BotState × List Effect :=
  if !(is_admin user_id st) then
    (st, [.logWarning s!"Unauthorized remove_command attempt by user {user_id}"])
  else if args.length != 1 then
    (st, [.reply "Usage: /remove_command <command>"])
  else
    match args with
    | command :: _ =>
      if dictContains command st.commands then
        ({ st with commands := dictDel command st.commands },
         [.persist "commands.json", .reply s!"Command {command} removed.",
          .logInfo s!"Command {command} removed by admin {user_id}"])
      else
        (st, [.reply s!"Command {command} does not exist."])
    | [] => (st, [])

/-- `list_commands` (lines 114-129), the `/help` handler: admins and
moderators get one reply joining four fixed built-in description lines
and the custom-command entries in table order; everyone else gets only
a warning log entry. -/
def list_commands (user_id : Int) (st : BotState) : BotState × List Effect :=
  if is_admin user_id st || is_moderator user_id st then
    let commands_list := String.intercalate "\n"
      (["/add_command <command> <response> - Add a new command (Admins only)",
        "/remove_command <command> - Remove an existing command (Admins only)",
        "/assign <admin|moderator> <add|remove> <user_id> - Assign roles (Admins only)",
        "/help - Show this help message"] ++
       ["Custom Commands:\n" ++ String.intercalate "\n"
          (st.commands.map (fun p => p.1 ++ " - " ++ p.2))])
    (st, [.reply ("Available commands:\n" ++ commands_list),
          .logInfo s!"Command list requested by user {user_id}"])
  else
    (st, [.logWarning s!"Unauthorized help command attempt by user {user_id}"])

/-- `view_roles` (lines 131-144): admin-only dump of both role lists,
with "No admins." / "No moderators." when a joined list is empty
(Python's `or` on a falsy empty join). -/
def view_roles (user_id : Int) (st : BotState) : BotState × List Effect :=
  if is_admin user_id st then
    let adminsJoined := String.intercalate "\n" (st.admins.map toString)
    let modsJoined := String.intercalate "\n" (st.moderators.map toString)
    let admins_list := if adminsJoined = "" then "No admins." else adminsJoined
    let moderators_list := if modsJoined = "" then "No moderators." else modsJoined
    (st, [.reply ("Admins:\n" ++ admins_list ++ "\n\nModerators:\n" ++ moderators_list),
          .logInfo s!"Roles list requested by user {user_id}"])
  else
    (st, [.logWarning s!"Unauthorized view_roles command attempt by user {user_id}"])

/-- `assign_role` (lines 146-203): admin-only; exactly 3 args required;
`int(context.args[2])` runs before any role/action validation and its
`ValueError` on a non-numeric target propagates out of the handler;
add/remove on each role list is guarded by membership, persists on
success, and reports already-present / not-present otherwise; unknown
action or role produce the explicit rejection replies. -/
def assign_role (user_id : Int) (args : List String) (st : BotState) :
    Except PyExc (BotState × List Effect) :=
  if !(is_admin user_id st) then
    .ok (st, [.logWarning s!"Unauthorized assign_role attempt by user {user_id}"])
  else if args.length != 3 then
    .ok (st, [.reply "Usage: /assign <admin|moderator> <add|remove> <user_id>"])
  else
    match args with
    | [role, action, tidStr] =>
      match pyInt? tidStr with
      | none => .error .valueError
      | some target_id =>
        if role == "admin" then
          if action == "add" then
            if !(st.admins.contains target_id) then
              .ok ({ st with admins := st.admins ++ [target_id] },
                   [.persist "admins.json", .reply s!"User {target_id} added as admin.",
                    .logInfo s!"User {target_id} added as admin by {user_id}"])
            else
              .ok (st, [.reply s!"User {target_id} is already an admin."])
          else if action == "remove" then
            if st.admins.contains target_id then
              .ok ({ st with admins := pyRemove target_id st.admins },
                   [.persist "admins.json", .reply s!"User {target_id} removed from admins.",
                    .logInfo s!"User {target_id} removed from admins by {user_id}"])
            else
              .ok (st, [.reply s!"User {target_id} is not an admin."])
          else
            .ok (st, [.reply "Invalid action. Use \"add\" or \"remove\"."])
        else if role == "moderator" then
          if action == "add" then
            if !(st.moderators.contains target_id) then
              .ok ({ st with moderators := st.moderators ++ [target_id] },
                   [.persist "mods.json", .reply s!"User {target_id} added as moderator.",
                    .logInfo s!"User {target_id} added as moderator by {user_id}"])
            else
              .ok (st, [.reply s!"User {target_id} is already a moderator."])
          else if action == "remove" then
            if st.moderators.contains target_id then
              .ok ({ st with moderators := pyRemove target_id st.moderators },
                   [.persist "mods.json", .reply s!"User {target_id} removed from moderators.",
                    .logInfo s!"User {target_id} removed from moderators by {user_id}"])
            else
              .ok (st, [.reply s!"User {target_id} is not a moderator."])
          else
            .ok (st, [.reply "Invalid action. Use \"add\" or \"remove\"."])
        else
          .ok (st, [.reply "Invalid role. Use \"admin\" or \"moderator\"."])
    | _ =>
      .ok (st, [.reply "Usage: /assign <admin|moderator> <add|remove> <user_id>"])

/-- A `dictInsert` write is read back at the written key and leaves
every other key's binding untouched. -/
theorem dictGet_dictInsert (k tok v : String) (d : List (String × String)) :
    dictGet k (dictInsert tok v d) = if k = tok then some v else dictGet k d := by
  induction d with
  | nil =>
    by_cases h : k = tok
    · subst h; simp [dictInsert, dictGet]
    · have h' : ¬tok = k := fun hh => h hh.symm
      simp [dictInsert, dictGet, h, h']
  | cons p rest ih =>
    obtain ⟨k', v'⟩ := p
    by_cases h1 : k' = tok <;> by_cases h2 : k' = k
    · subst h1; subst h2
      simp [dictInsert, dictGet]
    · subst h1
      have hk : ¬k = k' := fun hh => h2 hh.symm
      simp [dictInsert, dictGet, h2, hk]
    · subst h2
      simp [dictInsert, dictGet, h1]
    · have hk : ¬k = k' := fun hh => h2 hh.symm
      simp [dictInsert, dictGet, h1, h2, hk, ih]

/-- Claim C8: a `CommandTable` write (`COMMANDS[token] = response`,
line 79) followed immediately by a lookup of the same token
(`COMMANDS.get`, line 54) returns the just-added response. -/
theorem table_read_your_write (token response : String) (d : List (String × String)) :
    dictGet token (dictInsert token response d) = some response := by
  simpa using dictGet_dictInsert token token response d

/-- Claim C1 counterexample: admin sender 1, exactly 3 arguments, with
the non-numeric target "abc".  `int(context.args[2])` (line 158) raises
`ValueError`, which propagates out of `assign_role`: the handler
crashes instead of replying with a usage error, refuting the claim at
this input. -/
theorem assign_malformed_id_raises :
    assign_role 1 ["admin", "add", "abc"] ⟨[1], [], []⟩ = .error .valueError := by
  decide

/-- Claim C1 (amended): for an admin's assign-role invocation with
exactly 3 arguments, a malformed (non-numeric) target identity raises
an uncaught `ValueError` that aborts the handler with no reply and no
state mutated, while an invalid role or invalid action (with a numeric
target) yields an explicit rejection message naming the valid choices,
with no state mutated. -/
theorem assign_role_three_args_validation (user_id : Int) (st : BotState)
    (role action tidStr : String) (hadm : is_admin user_id st = true) :
    (pyInt? tidStr = none →
      assign_role user_id [role, action, tidStr] st = .error .valueError) ∧
    (∀ target_id : Int, pyInt? tidStr = some target_id →
      role ≠ "admin" → role ≠ "moderator" →
      assign_role user_id [role, action, tidStr] st =
        .ok (st, [.reply "Invalid role. Use \"admin\" or \"moderator\"."])) ∧
    (∀ target_id : Int, pyInt? tidStr = some target_id →
      (role = "admin" ∨ role = "moderator") → action ≠ "add" → action ≠ "remove" →
      assign_role user_id [role, action, tidStr] st =
        .ok (st, [.reply "Invalid action. Use \"add\" or \"remove\"."])) := by
  refine ⟨?_, ?_, ?_⟩
  · intro hp
    simp [assign_role, hadm, hp]
  · intro target_id hp h1 h2
    simp [assign_role, hadm, hp, h1, h2]
  · intro target_id hp hrole h1 h2
    rcases hrole with h | h <;> subst h <;> simp [assign_role, hadm, hp, h1, h2]

/-- Claim C1 witness: concrete invalid role with a numeric target. -/
theorem assign_role_three_args_validation_w :
    assign_role 1 ["bogus", "x", "5"] ⟨[1], [], []⟩ =
      .ok (⟨[1], [], []⟩, [.reply "Invalid role. Use \"admin\" or \"moderator\"."]) :=
  (assign_role_three_args_validation 1 ⟨[1], [], []⟩ "bogus" "x" "5"
    (by decide)).2.1 5 (by decide) (by decide) (by decide)

/-- Claim C4: an admin's role removal whose numeric target is absent
from the targeted role list leaves the state unchanged, triggers no
persist, and replies that the target is not present (lines 170-178 and
191-199). -/
theorem assign_remove_absent (user_id : Int) (st : BotState) (tidStr : String)
    (target_id : Int) (hadm : is_admin user_id st = true)
    (hp : pyInt? tidStr = some target_id) :
    (st.admins.contains target_id = false →
      assign_role user_id ["admin", "remove", tidStr] st =
        .ok (st, [.reply s!"User {target_id} is not an admin."])) ∧
    (st.moderators.contains target_id = false →
      assign_role user_id ["moderator", "remove", tidStr] st =
        .ok (st, [.reply s!"User {target_id} is not a moderator."])) := by
  constructor <;> intro hmem <;> simp at hmem <;> simp [assign_role, hadm, hp, hmem]

/-- Claim C4 witness: the spec's scenario `/assign admin remove 999`
with 999 not an admin replies exactly "User 999 is not an admin.". -/
theorem assign_remove_absent_w :
    assign_role 1 ["admin", "remove", "999"] ⟨[1], [], []⟩ =
      .ok (⟨[1], [], []⟩, [.reply "User 999 is not an admin."]) :=
  ((assign_remove_absent 1 ⟨[1], [], []⟩ "999" 999 (by decide) (by decide)).1
    (by decide)).trans (by decide)

/-- Claim C5: an admin's role addition whose numeric target is already
in the targeted role list is idempotent: the state is unchanged, no
persist is triggered, and the reply reports the target is already
present (lines 160-169 and 181-190). -/
theorem assign_add_present (user_id : Int) (st : BotState) (tidStr : String)
    (target_id : Int) (hadm : is_admin user_id st = true)
    (hp : pyInt? tidStr = some target_id) :
    (st.admins.contains target_id = true →
      assign_role user_id ["admin", "add", tidStr] st =
        .ok (st, [.reply s!"User {target_id} is already an admin."])) ∧
    (st.moderators.contains target_id = true →
      assign_role user_id ["moderator", "add", tidStr] st =
        .ok (st, [.reply s!"User {target_id} is already a moderator."])) := by
  constructor <;> intro hmem <;> simp at hmem <;> simp [assign_role, hadm, hp, hmem]

/-- Claim C5 witness: adding admin 1, already an admin. -/
theorem assign_add_present_w :
    assign_role 1 ["admin", "add", "1"] ⟨[1], [], []⟩ =
      .ok (⟨[1], [], []⟩, [.reply "User 1 is already an admin."]) :=
  ((assign_add_present 1 ⟨[1], [], []⟩ "1" 1 (by decide) (by decide)).1
    (by decide)).trans (by decide)

/-- Claim C3: an admin's add-command with fewer than 2 arguments replies
the usage string and mutates nothing; with 2 or more arguments it
stores, under the first argument, the remaining arguments joined with
single spaces, and the write silently overwrites any existing entry for
that token while leaving all other keys unchanged (lines 63-86). -/
theorem add_command_behavior (user_id : Int) (st : BotState) (args : List String)
    (hadm : is_admin user_id st = true) :
    (args.length < 2 →
      add_command user_id args st =
        (st, [.reply "Usage: /add_command <command> <response>"])) ∧
    (∀ (tok : String) (rest : List String), args = tok :: rest → rest ≠ [] →
      add_command user_id args st =
        ({ st with commands := dictInsert tok (String.intercalate " " rest) st.commands },
         [.persist "commands.json", .reply s!"Command {tok} added.",
          .logInfo s!"Command {tok} added by admin {user_id}"])) ∧
    (∀ (tok resp k : String) (d : List (String × String)),
      dictGet k (dictInsert tok resp d) = if k = tok then some resp else dictGet k d) := by
  refine ⟨?_, ?_, fun tok resp k d => dictGet_dictInsert k tok resp d⟩
  · intro hlen
    simp [add_command, hadm, hlen]
  · intro tok rest hargs hne
    subst hargs
    cases rest with
    | nil => exact absurd rfl hne
    | cons b bs => simp [add_command, hadm]

/-- Claim C3 witness: the spec's scenario
`/add_command !greet Hello there` by admin 1 on an empty table. -/
theorem add_command_behavior_w :
    add_command 1 ["!greet", "Hello", "there"] ⟨[1], [], []⟩ =
      (⟨[1], [], [("!greet", "Hello there")]⟩,
       [.persist "commands.json", .reply "Command !greet added.",
        .logInfo "Command !greet added by admin 1"]) :=
  ((add_command_behavior 1 ⟨[1], [], []⟩ ["!greet", "Hello", "there"] (by decide)).2.1
    "!greet" ["Hello", "there"] rfl (by decide)).trans (by decide)

/-- Claim C6: an admin's remove-command with exactly 1 argument naming
an unknown token replies that the command does not exist, leaves the
table unchanged and triggers no persist (lines 96-112). -/
theorem remove_command_unknown (user_id : Int) (st : BotState) (tok : String)
    (hadm : is_admin user_id st = true) (hmiss : dictGet tok st.commands = none) :
    remove_command user_id [tok] st =
      (st, [.reply s!"Command {tok} does not exist."]) ∧
    hasPersist (remove_command user_id [tok] st).2 = false := by
  have h : remove_command user_id [tok] st =
      (st, [.reply s!"Command {tok} does not exist."]) := by
    simp [remove_command, hadm, dictContains, hmiss]
  exact ⟨h, by rw [h]; rfl⟩

/-- Claim C6 witness: removing the unknown token "zap". -/
theorem remove_command_unknown_w :
    remove_command 1 ["zap"] ⟨[1], [], [("!g", "hi")]⟩ =
      (⟨[1], [], [("!g", "hi")]⟩, [.reply "Command zap does not exist."]) :=
  ((remove_command_unknown 1 ⟨[1], [], [("!g", "hi")]⟩ "zap"
    (by decide) (by decide)).1).trans (by decide)

/-- The `/help` reply produced for an admin with an empty command
table: it names `/add_command`, `/remove_command`, `/assign` and
`/help` — and nothing else. -/
def helpTextEmpty : String :=
  "Available commands:\n/add_command <command> <response> - Add a new command (Admins only)\n/remove_command <command> - Remove an existing command (Admins only)\n/assign <admin|moderator> <add|remove> <user_id> - Assign roles (Admins only)\n/help - Show this help message\nCustom Commands:\n"

/-- Claim C2 counterexample: for admin 1 with an empty command table,
the help reply is exactly `helpTextEmpty`, which never mentions the
fifth built-in `view_roles` (while it does mention `/add_command`, as a
control for the substring test): the claim that every one of the five
built-in commands is described fails. -/
theorem help_omits_view_roles :
    list_commands 1 ⟨[1], [], []⟩ =
      (⟨[1], [], []⟩, [.reply helpTextEmpty, .logInfo "Command list requested by user 1"]) ∧
    mentionsStr "view_roles" helpTextEmpty = false ∧
    mentionsStr "/add_command" helpTextEmpty = true := by
  refine ⟨by decide, by decide, by decide⟩

/-- Claim C2 (amended): for an admin or moderator sender, `/help`
replies with a fixed description of four of the five built-in commands
(`/add_command`, `/remove_command`, `/assign`, `/help`; `/view_roles`
is omitted) followed by every entry currently in the command table, in
table order (lines 114-127). -/
theorem help_reply_contents (user_id : Int) (st : BotState)
    (h : is_admin user_id st = true ∨ is_moderator user_id st = true) :
    list_commands user_id st =
      (st, [.reply ("Available commands:\n" ++ String.intercalate "\n"
              (["/add_command <command> <response> - Add a new command (Admins only)",
                "/remove_command <command> - Remove an existing command (Admins only)",
                "/assign <admin|moderator> <add|remove> <user_id> - Assign roles (Admins only)",
                "/help - Show this help message"] ++
               ["Custom Commands:\n" ++ String.intercalate "\n"
                  (st.commands.map (fun p => p.1 ++ " - " ++ p.2))])),
            .logInfo s!"Command list requested by user {user_id}"]) := by
  rcases h with h | h <;> simp [list_commands, h]

/-- Claim C2 witness: admin 1 with one stored command; the custom entry
appears after the built-in lines. -/
theorem help_reply_contents_w :
    list_commands 1 ⟨[1], [], [("!greet", "Hello there")]⟩ =
      (⟨[1], [], [("!greet", "Hello there")]⟩,
       [.reply (helpTextEmpty ++ "!greet - Hello there"),
        .logInfo "Command list requested by user 1"]) :=
  (help_reply_contents 1 ⟨[1], [], [("!greet", "Hello there")]⟩
    (Or.inl (by decide))).trans (by decide)

/-- Claim C7: a sender failing the required tier gets a silent denial:
each admin-only handler (`add_command`, `remove_command`, `assign_role`,
`view_roles`) returns for a non-admin with only a warning log entry, no
reply and no mutation, and the admin-or-moderator handlers
(`list_commands`, `handle_command`) do the same for a sender in neither
role. -/
theorem silent_denial (user_id : Int) (st : BotState) (args : List String)
    (text : String) :
    (is_admin user_id st = false →
      add_command user_id args st =
        (st, [.logWarning s!"Unauthorized add_command attempt by user {user_id}"]) ∧
      remove_command user_id args st =
        (st, [.logWarning s!"Unauthorized remove_command attempt by user {user_id}"]) ∧
      assign_role user_id args st =
        .ok (st, [.logWarning s!"Unauthorized assign_role attempt by user {user_id}"]) ∧
      view_roles user_id st =
        (st, [.logWarning s!"Unauthorized view_roles command attempt by user {user_id}"])) ∧
    (is_admin user_id st = false → is_moderator user_id st = false →
      list_commands user_id st =
        (st, [.logWarning s!"Unauthorized help command attempt by user {user_id}"]) ∧
      (pySplit text ≠ [] →
        handle_command user_id text st =
          .ok (st, [.logWarning s!"Unauthorized command attempt by user {user_id}"]))) := by
  constructor
  · intro hadm
    refine ⟨?_, ?_, ?_, ?_⟩ <;>
      simp [add_command, remove_command, assign_role, view_roles, hadm]
  · intro hadm hmod
    refine ⟨by simp [list_commands, hadm, hmod], ?_⟩
    intro htok
    cases hsplit : pySplit text with
    | nil => exact absurd hsplit htok
    | cons c cs => simp [handle_command, hsplit, hadm, hmod]

/-- Claim C7 witness: user 2 (neither admin nor moderator) is denied
silently on `add_command` and on a stored custom command. -/
theorem silent_denial_w :
    add_command 2 ["x"] ⟨[1], [3], [("!g", "hi")]⟩ =
      (⟨[1], [3], [("!g", "hi")]⟩, [.logWarning "Unauthorized add_command attempt by user 2"]) ∧
    handle_command 2 "!g hello" ⟨[1], [3], [("!g", "hi")]⟩ =
      .ok (⟨[1], [3], [("!g", "hi")]⟩, [.logWarning "Unauthorized command attempt by user 2"]) := by
  have h := silent_denial 2 ⟨[1], [3], [("!g", "hi")]⟩ ["x"] "!g hello"
  exact ⟨((h.1 (by decide)).1).trans (by decide),
         (((h.2 (by decide) (by decide)).2) (by decide)).trans (by decide)⟩

/-- Claim C9: the admin-only handlers check authorization before any
argument validation: a non-admin sender, with any argument list
whatsoever (wrong count, malformed numeric target, anything), receives
no usage-error reply and no state is mutated — only the warning log
entry is emitted. -/
theorem auth_before_validation (user_id : Int) (st : BotState) (args : List String)
    (hadm : is_admin user_id st = false) :
    add_command user_id args st =
      (st, [.logWarning s!"Unauthorized add_command attempt by user {user_id}"]) ∧
    remove_command user_id args st =
      (st, [.logWarning s!"Unauthorized remove_command attempt by user {user_id}"]) ∧
    assign_role user_id args st =
      .ok (st, [.logWarning s!"Unauthorized assign_role attempt by user {user_id}"]) := by
  refine ⟨?_, ?_, ?_⟩ <;> simp [add_command, remove_command, assign_role, hadm]

/-- Claim C9 witness: moderator 5 (not an admin) sends `/assign` with a
malformed numeric target; the denial comes first, so no crash and no
usage reply. -/
theorem auth_before_validation_w :
    assign_role 5 ["admin", "add", "notanumber"] ⟨[1], [5], []⟩ =
      .ok (⟨[1], [5], []⟩, [.logWarning "Unauthorized assign_role attempt by user 5"]) :=
  ((auth_before_validation 5 ⟨[1], [5], []⟩ ["admin", "add", "notanumber"]
    (by decide)).2.2).trans (by decide)

/-- Claim C10: `handle_command` keys on only the first whitespace token
of the message text: the outcome depends only on that token (trailing
text is ignored for lookup and for the emitted response); an authorized
sender whose token is not in the table gets no reply and no deletion;
an authorized sender whose token maps to a nonempty response gets
exactly that stored response followed by deletion of the trigger
message (lines 47-58). -/
theorem dispatch_first_token (user_id : Int) (st : BotState) :
    (∀ text₁ text₂ : String, (pySplit text₁).head? = (pySplit text₂).head? →
      handle_command user_id text₁ st = handle_command user_id text₂ st) ∧
    (∀ (text tok : String) (rest : List String),
      (is_admin user_id st || is_moderator user_id st) = true →
      pySplit text = tok :: rest → dictGet tok st.commands = none →
      handle_command user_id text st = .ok (st, [])) ∧
    (∀ (text tok : String) (rest : List String) (r : String),
      (is_admin user_id st || is_moderator user_id st) = true →
      pySplit text = tok :: rest → dictGet tok st.commands = some r → r ≠ "" →
      handle_command user_id text st =
        .ok (st, [.reply r, .deleteMsg,
                  .logInfo s!"Command {tok} executed by user {user_id}"])) := by
  refine ⟨?_, ?_, ?_⟩
  · intro text₁ text₂ hhead
    unfold handle_command
    cases h1 : pySplit text₁ with
    | nil =>
      cases h2 : pySplit text₂ with
      | nil => rfl
      | cons b bs => rw [h1, h2] at hhead; simp at hhead
    | cons a as =>
      cases h2 : pySplit text₂ with
      | nil => rw [h1, h2] at hhead; simp at hhead
      | cons b bs =>
        rw [h1, h2] at hhead
        simp only [List.head?_cons, Option.some.injEq] at hhead
        subst hhead
        rfl
  · intro text tok rest hauth hsplit hmiss
    simp [handle_command, hsplit, hauth, hmiss]
  · intro text tok rest r hauth hsplit hfound hne
    simp [handle_command, hsplit, hauth, hfound, hne]

/-- Claim C10 witness: with `!greet -> "Hello there"` stored, trailing
text changes nothing, an unknown token is silently ignored, and the
stored response plus deletion are emitted for a known token. -/
theorem dispatch_first_token_w :
    handle_command 1 "!greet extra stuff" ⟨[1], [], [("!greet", "Hello there")]⟩ =
      handle_command 1 "!greet" ⟨[1], [], [("!greet", "Hello there")]⟩ ∧
    handle_command 1 "!nope xyz" ⟨[1], [], [("!greet", "Hello there")]⟩ =
      .ok (⟨[1], [], [("!greet", "Hello there")]⟩, []) ∧
    handle_command 1 "!greet trailing" ⟨[1], [], [("!greet", "Hello there")]⟩ =
      .ok (⟨[1], [], [("!greet", "Hello there")]⟩,
           [.reply "Hello there", .deleteMsg,
            .logInfo "Command !greet executed by user 1"]) := by
  have h := dispatch_first_token 1 ⟨[1], [], [("!greet", "Hello there")]⟩
  exact ⟨h.1 "!greet extra stuff" "!greet" (by decide),
         h.2.1 "!nope xyz" "!nope" ["xyz"] (by decide) (by decide) (by decide),
         (h.2.2 "!greet trailing" "!greet" ["trailing"] "Hello there"
           (by decide) (by decide) (by decide) (by decide)).trans (by decide)⟩
